import Mathlib

/-!
Verification development for the airtable-blog-emailer pipeline.

The development shallowly embeds the programs of the repository:
`airtable_blog_fetcher.py` (record fetching and normalization),
`email_formatter.py` (HTML and plain-text rendering, JSON loading),
`parse_blog_posts.py` (Markdown rendering and CSV export) and
`gmail_sender.py` (mail composition, sending, the send log and the
multi-recipient loop).  Calendar dates are represented by their rata-die
day number (day 1 is 0001-01-01 of the proleptic Gregorian calendar); an
ISO 8601 date string YYYY-MM-DD is modelled by its day number, whose
numeric order agrees with the lexicographic order of the zero-padded
strings that Python sorts.  The wall clock is passed in explicitly: a
`today : Nat` day number for date arithmetic and a preformatted timestamp
string where the code interpolates `datetime.now().strftime(...)`.
-/

/-- Gregorian `(year, month, day)` of a rata-die day number, by the standard
civil-from-days calendar algorithm. -/
def civilFromDays (rd : Nat) : Nat × Nat × Nat :=
  let z := rd + 305
  let era := z / 146097
  let doe := z % 146097
  let yoe := (doe - doe / 1460 + doe / 36524 - doe / 146096) / 365
  let y := yoe + era * 400
  let doy := doe - (365 * yoe + yoe / 4 - yoe / 100)
  let mp := (5 * doy + 2) / 153
  let d := doy - (153 * mp + 2) / 5 + 1
  let m := if mp < 10 then mp + 3 else mp - 9
  (if m ≤ 2 then y + 1 else y, m, d)

/-- Full month name, for strftime directive percent-B. -/
def monthName (m : Nat) : String :=
  ["January", "February", "March", "April", "May", "June", "July",
   "August", "September", "October", "November", "December"].getD (m - 1) ""

/-- Weekday name of a rata-die day number, for strftime directive percent-A
(rata-die day 1 is a Monday). -/
def weekdayName (rd : Nat) : String :=
  ["Sunday", "Monday", "Tuesday", "Wednesday", "Thursday", "Friday",
   "Saturday"].getD (rd % 7) ""

/-- Zero-padded two-digit rendering of a number, as strftime emits days. -/
def pad2 (n : Nat) : String :=
  if n < 10 then "0" ++ toString n else toString n

/-- Zero-padded four-digit rendering of a year. -/
def pad4 (n : Nat) : String :=
  let s := toString n
  String.mk (List.replicate (4 - s.length) '0') ++ s

/-- Rendering of a date with format `%A, %B %d, %Y`, as used for the date
headings of the HTML, plain-text and Markdown reports. -/
def strftimeFull (rd : Nat) : String :=
  let c := civilFromDays rd
  let w := weekdayName rd
  let mn := monthName c.2.1
  let dd := pad2 c.2.2
  let yy := toString c.1
  s!"{w}, {mn} {dd}, {yy}"

/-- Rendering of a date with format `%Y-%m-%d` (ISO 8601), the form stored in
the JSON file and used as grouping key. -/
def isoString (rd : Nat) : String :=
  let c := civilFromDays rd
  let yy := pad4 c.1
  let mm := pad2 c.2.1
  let dd := pad2 c.2.2
  s!"{yy}-{mm}-{dd}"

/-- Rendering of a date with format `%Y%m%d`, used in the attachment
filename of `gmail_sender.create_message`. -/
def strftimeCompact (rd : Nat) : String :=
  let c := civilFromDays rd
  let yy := pad4 c.1
  let mm := pad2 c.2.1
  let dd := pad2 c.2.2
  s!"{yy}{mm}{dd}"

/-- Python runtime faults that the embedded functions can raise: a KeyError
from a missing dictionary key, or a TypeError (comparing or parsing None). -/
inductive PyErr where
  | keyError (key : String)
  | typeError (msg : String)
deriving Repr, DecidableEq

/-- One processed blog-post record, exactly the dictionary shape built by
`AirtableBlogFetcher._process_records`: every key is always present except
`days_until_due`, which is added only when the record has a due date. -/
structure Post where
  id : Option String
  title : String
  due_date : Option Nat
  status : String
  author : String
  category : String
  notes : String
  word_count_target : Nat
  priority : String
  days_until_due : Option Int
deriving Repr, DecidableEq

/-- The `fields` object of one raw Airtable record: each named field that
`_process_records` reads may be absent, and `extra` holds any further fields
of the record, which the code never reads.  The due-date value is modelled
already parsed to a day number (the API returns ISO date strings). -/
structure RawFields where
  title : Option String := none
  dueDate : Option Nat := none
  status : Option String := none
  author : Option String := none
  category : Option String := none
  notes : Option String := none
  wordCountTarget : Option Nat := none
  priority : Option String := none
  extra : List (String × String) := []
deriving Repr, DecidableEq

/-- One raw record of the Airtable response; `record.get(\x27fields\x27, \x7b\x7d)`
on a record with no fields object is modelled by the all-absent default. -/
structure RawRecord where
  id : Option String := none
  fields : RawFields := {}
deriving Repr, DecidableEq

/-- Embedding of `AirtableBlogFetcher._process_records`: maps each raw record
to a `Post`, substituting the documented default for every missing field and
adding `days_until_due = due_date - today` only when a due date is present. -/
def _process_records (today : Nat) (records : List RawRecord) : List Post :=
  records.map fun record =>
    let fields := record.fields
    let due := fields.dueDate
    { id := record.id
      title := fields.title.getD "Untitled"
      due_date := due
      status := fields.status.getD "Not Started"
      author := fields.author.getD "Unassigned"
      category := fields.category.getD ""
      notes := fields.notes.getD ""
      word_count_target := fields.wordCountTarget.getD 0
      priority := fields.priority.getD "Medium"
      days_until_due := due.map (fun d => (d : Int) - (today : Int)) }

/-- Airtable formula function IS_AFTER: the date value lies strictly after
the threshold. -/
def IS_AFTER (dateVal threshold : Nat) : Bool :=
  threshold < dateVal

/-- Airtable formula function IS_BEFORE: the date value lies strictly before
the threshold. -/
def IS_BEFORE (dateVal threshold : Nat) : Bool :=
  dateVal < threshold

/-- Semantics of the filter formula built in `get_posts_due_this_week`:
`AND(IS_AFTER(due, today), IS_BEFORE(due, week_from_now))`; a record with a
blank due-date field never matches. -/
def filterFormulaHolds (windowStart windowEnd : Nat) (due : Option Nat) : Bool :=
  match due with
  | some d => IS_AFTER d windowStart && IS_BEFORE d windowEnd
  | none => false

/-- Stable insertion of an element into a list sorted ascending by `key`. -/
def insertByKey {α : Type} (key : α → Nat) (a : α) : List α → List α
  | [] => [a]
  | b :: rest => if key a ≤ key b then a :: b :: rest else b :: insertByKey key a rest

/-- Stable ascending sort by `key`, modelling the sort directive of the
Airtable query and Python `sorted`. -/
def sortByKey {α : Type} (key : α → Nat) : List α → List α
  | [] => []
  | a :: rest => insertByKey key a (sortByKey key rest)

/-- Sort key of a raw record for the `sort[0][field] = due date` directive. -/
def dueKey (r : RawRecord) : Nat :=
  (r.fields.dueDate).getD 0

/-- Server-side evaluation of the query sent by `get_posts_due_this_week`:
keep exactly the records matching the filter formula and return them sorted
ascending by due date. -/
def airtableSelect (windowStart windowEnd : Nat) (table : List RawRecord) : List RawRecord :=
  sortByKey dueKey (table.filter fun r => filterFormulaHolds windowStart windowEnd r.fields.dueDate)

/-- A transport or HTTP failure of the fetch request
(`requests.exceptions.RequestException`), with the optional response text
that the handler prints. -/
structure RequestError where
  message : String
  responseText : Option String := none
deriving Repr, DecidableEq

/-- Embedding of `AirtableBlogFetcher.get_posts_due_this_week`: on a
transport success the server answer to the constructed query (window
`today` to `today + 7`) is normalized by `_process_records`; on a transport
failure the error is printed and the empty list is returned.  The result
pairs the returned posts with the printed operator-channel lines. -/
def get_posts_due_this_week (today : Nat) (transport : Except RequestError Unit)
    (table : List RawRecord) : List Post × List String :=
  match transport with
  | .error e =>
      let m := e.message
      ([], [s!"Error fetching data from Airtable: {m}"] ++
        (match e.responseText with
         | some t => [s!"Response: {t}"]
         | none => []))
  | .ok _ => (_process_records today (airtableSelect today (today + 7) table), [])

/-- Embedding of `load_blog_posts` (`email_formatter.py`): `json.load` parses
the persisted file back to exactly the stored record list, unchanged. -/
def load_blog_posts (stored : List Post) : List Post :=
  stored

theorem mem_insertByKey {α : Type} (key : α → Nat) (a x : α) (l : List α) :
    x ∈ insertByKey key a l ↔ x = a ∨ x ∈ l := by
  induction l with
  | nil => simp [insertByKey]
  | cons b rest ih =>
    by_cases h : key a ≤ key b
    · simp [insertByKey, h]
    · simp [insertByKey, h, ih]
      tauto

theorem mem_sortByKey {α : Type} (key : α → Nat) (x : α) (l : List α) :
    x ∈ sortByKey key l ↔ x ∈ l := by
  induction l with
  | nil => simp [sortByKey]
  | cons b rest ih =>
    simp [sortByKey, mem_insertByKey, ih]

theorem pairwise_insertByKey {α : Type} (key : α → Nat) (a : α) (l : List α)
    (h : l.Pairwise (fun x y => key x ≤ key y)) :
    (insertByKey key a l).Pairwise (fun x y => key x ≤ key y) := by
  induction l with
  | nil => simp [insertByKey]
  | cons b rest ih =>
    rcases List.pairwise_cons.mp h with ⟨hb, hrest⟩
    by_cases hab : key a ≤ key b
    · simp only [insertByKey, if_pos hab]
      refine List.pairwise_cons.mpr ⟨?_, h⟩
      intro y hy
      rcases List.mem_cons.mp hy with rfl | hy
      · exact hab
      · exact le_trans hab (hb y hy)
    · simp only [insertByKey, if_neg hab]
      refine List.pairwise_cons.mpr ⟨?_, ih hrest⟩
      intro y hy
      rcases (mem_insertByKey key a y rest).mp hy with rfl | hy
      · exact Nat.le_of_not_le hab
      · exact hb y hy

theorem pairwise_sortByKey {α : Type} (key : α → Nat) (l : List α) :
    (sortByKey key l).Pairwise (fun x y => key x ≤ key y) := by
  induction l with
  | nil => simp [sortByKey]
  | cons b rest ih => exact pairwise_insertByKey key b _ ih

/-- Key lookup `post[\x27days_until_due\x27]`: a KeyError is raised when the
record was stored without a due date. -/
def daysOf (p : Post) : Except PyErr Int :=
  match p.days_until_due with
  | some d => .ok d
  | none => .error (.keyError "days_until_due")

/-- The urgent-posts statistic `len([p for p in posts if p[\x27days_until_due\x27] <= 2])`,
as computed identically in `create_html_email`, `create_plain_text_email`
and `GmailSender.create_message`. -/
def urgentCountE (posts : List Post) : Except PyErr Nat := do
  let ds ← posts.mapM daysOf
  return (ds.filter (fun d => d ≤ 2)).length

/-- The not-started statistic `len([p for p in posts if p[\x27status\x27] == \x27Not Started\x27])`. -/
def notStartedCount (posts : List Post) : Nat :=
  (posts.filter (fun p => p.status == "Not Started")).length

/-- Append a post under its due-date key, keeping keys in first-occurrence
order and each group in insertion order, as `defaultdict(list)` does. -/
def insertGroup : List (Option Nat × List Post) → Option Nat → Post → List (Option Nat × List Post)
  | [], k, p => [(k, [p])]
  | (k2, ps) :: rest, k, p =>
    if k2 = k then (k2, ps ++ [p]) :: rest else (k2, ps) :: insertGroup rest k p

/-- The `posts_by_date` grouping shared by the HTML, plain-text and Markdown
renderers: a mapping from due-date key to the posts with that date. -/
def groupByDate (posts : List Post) : List (Option Nat × List Post) :=
  posts.foldl (fun acc p => insertGroup acc p.due_date p) []

/-- Python `sorted(posts_by_date.keys())` over date keys that may include the
None of a null due date: comparing None with a string raises TypeError (and a
lone None key fails at `fromisoformat` in the loop body, modelled here at the
same observable point); otherwise the keys come back ascending. -/
def sortedDateKeys (ks : List (Option Nat)) : Except PyErr (List (Option Nat)) :=
  if ks.any Option.isNone && 2 ≤ ks.length then
    .error (.typeError "NoneType date key is not orderable")
  else
    .ok ((sortByKey id (ks.filterMap id)).map some ++
      (if ks.any Option.isNone then [none] else []))

/-- The statistics triple of `create_html_email` (lines 28 to 30): total
posts, urgent posts (`days_until_due <= 2`) and not-started posts. -/
def htmlStatistics (posts : List Post) : Except PyErr (Nat × Nat × Nat) := do
  let urgent_posts ← urgentCountE posts
  return (posts.length, urgent_posts, notStartedCount posts)

/-- The statistics triple of `create_plain_text_email` (lines 213 to 215),
computed by the same three expressions as the HTML statistics. -/
def textStatistics (posts : List Post) : Except PyErr (Nat × Nat × Nat) := do
  let urgent_posts ← urgentCountE posts
  return (posts.length, urgent_posts, notStartedCount posts)

/-- The date iteration order of the HTML renderer:
`sorted(posts_by_date.keys())`. -/
def htmlDateOrder (posts : List Post) : Except PyErr (List (Option Nat)) :=
  sortedDateKeys ((groupByDate posts).map Prod.fst)

/-- The date iteration order of the plain-text renderer, the same
`sorted(posts_by_date.keys())` expression. -/
def textDateOrder (posts : List Post) : Except PyErr (List (Option Nat)) :=
  sortedDateKeys ((groupByDate posts).map Prod.fst)

/-- The date iteration order of the Markdown renderer, the same
`sorted(posts_by_date.keys())` expression. -/
def mdDateOrder (posts : List Post) : Except PyErr (List (Option Nat)) :=
  sortedDateKeys ((groupByDate posts).map Prod.fst)

/-- Notes excerpt of the HTML renderer:
`post[\x27notes\x27][:150] + \x27...\x27 if len(post[\x27notes\x27]) > 150 else post[\x27notes\x27]`. -/
def notesPreviewHtml (notes : String) : String :=
  if notes.length > 150 then notes.take 150 ++ "..." else notes

/-- Notes excerpt of the plain-text renderer:
`post[\x27notes\x27][:100] + \x27...\x27 if len(post[\x27notes\x27]) > 100 else post[\x27notes\x27]`. -/
def notesPreviewText (notes : String) : String :=
  if notes.length > 100 then notes.take 100 ++ "..." else notes

/-- A run of `n` copies of one character, for the Python `"=" * 60` style
separator strings. -/
def repeatChar (c : Char) (n : Nat) : String :=
  String.mk (List.replicate n c)

/-- The static DOCTYPE, style sheet and opening body tag of the HTML report
(brace characters of the CSS written as escapes). -/
def htmlStyleHeader : String :=
  "\n    <!DOCTYPE html>\n    <html>\n    <head>\n        <style>\n            body \x7b\n                font-family: -apple-system, BlinkMacSystemFont, 'Segoe UI', Roboto, 'Helvetica Neue', Arial, sans-serif;\n                line-height: 1.6;\n                color: #333;\n                max-width: 800px;\n                margin: 0 auto;\n                padding: 20px;\n            \x7d\n            h1 \x7b\n                color: #2c3e50;\n                border-bottom: 3px solid #3498db;\n                padding-bottom: 10px;\n            \x7d\n            h2 \x7b\n                color: #34495e;\n                margin-top: 30px;\n                background: #ecf0f1;\n                padding: 10px;\n                border-left: 4px solid #3498db;\n            \x7d\n            .stats \x7b\n                background: #f8f9fa;\n                border: 1px solid #dee2e6;\n                border-radius: 5px;\n                padding: 15px;\n                margin: 20px 0;\n            \x7d\n            .stat-item \x7b\n                display: inline-block;\n                margin-right: 30px;\n                font-size: 16px;\n            \x7d\n            .stat-number \x7b\n                font-size: 24px;\n                font-weight: bold;\n                color: #3498db;\n            \x7d\n            .post-card \x7b\n                background: white;\n                border: 1px solid #e1e4e8;\n                border-radius: 5px;\n                padding: 15px;\n                margin: 10px 0;\n                box-shadow: 0 1px 3px rgba(0,0,0,0.1);\n            \x7d\n            .post-title \x7b\n                font-size: 18px;\n                font-weight: bold;\n                color: #2c3e50;\n                margin-bottom: 10px;\n            \x7d\n            .post-meta \x7b\n                font-size: 14px;\n                color: #666;\n                line-height: 1.8;\n            \x7d\n            .urgent \x7b\n                background: #fff3cd;\n                border-color: #ffc107;\n            \x7d\n            .label \x7b\n                display: inline-block;\n                padding: 2px 8px;\n                border-radius: 3px;\n                font-size: 12px;\n                font-weight: bold;\n                text-transform: uppercase;\n                margin-right: 5px;\n            \x7d\n            .label-urgent \x7b\n                background: #dc3545;\n                color: white;\n            \x7d\n            .label-soon \x7b\n                background: #ffc107;\n                color: #333;\n            \x7d\n            .label-medium \x7b\n                background: #6c757d;\n                color: white;\n            \x7d\n            .footer \x7b\n                margin-top: 40px;\n                padding-top: 20px;\n                border-top: 1px solid #dee2e6;\n                font-size: 12px;\n                color: #6c757d;\n                text-align: center;\n            \x7d\n        </style>\n    </head>\n    <body>\n    "

/-- The statistics banner of the HTML report, interpolating the generation
timestamp and the three statistics. -/
def htmlStatsBanner (now : String) (total_posts urgent_posts not_started : Nat) : String :=
  s!"\n        <h1>📝 Weekly Blog Post Schedule</h1>\n        <p><strong>Report Generated:</strong> {now}</p>\n        \n        <div class=\"stats\">\n            <div class=\"stat-item\">\n                <div class=\"stat-number\">{total_posts}</div>\n                <div>Total Posts Due</div>\n            </div>\n            <div class=\"stat-item\">\n                <div class=\"stat-number\" style=\"color: #dc3545;\">{urgent_posts}</div>\n                <div>Urgent (≤2 days)</div>\n            </div>\n            <div class=\"stat-item\">\n                <div class=\"stat-number\" style=\"color: #ffc107;\">{not_started}</div>\n                <div>Not Started</div>\n            </div>\n        </div>\n    "

/-- The static footer and closing tags of the HTML report. -/
def htmlFooter : String :=
  "\n        <div class=\"footer\">\n            <p>This report was automatically generated from Airtable data.</p>\n            <p>To update the data, please visit your <a href=\"https://airtable.com/appfjLaSUBn8FUYYz/tblrH6OO1ulOnDS4S\">Airtable Base</a></p>\n        </div>\n    </body>\n    </html>\n    "

/-- One post card of the HTML report, with the urgent card style for
`days_until_due <= 2` and the conditional author, category, word-count and
notes lines. -/
def htmlPostCard (p : Post) : Except PyErr String := do
  let days ← daysOf p
  let card_class := if days ≤ 2 then "post-card urgent" else "post-card"
  let title := p.title
  let status := p.status
  let priority := p.priority
  let author := p.author
  let category := p.category
  let wct := p.word_count_target
  let np := notesPreviewHtml p.notes
  return s!"<div class=\"{card_class}\">\n" ++
    s!"  <div class=\"post-title\">{title}</div>\n" ++
    "  <div class=\"post-meta\">\n" ++
    s!"    <strong>Status:</strong> {status} | " ++
    s!"    <strong>Priority:</strong> {priority} | " ++
    s!"    <strong>Days Until Due:</strong> {days}<br>\n" ++
    (if p.author ≠ "Unassigned" then s!"    <strong>Author:</strong> {author}<br>\n" else "") ++
    (if p.category ≠ "" then s!"    <strong>Category:</strong> {category}<br>\n" else "") ++
    (if p.word_count_target ≠ 0 then s!"    <strong>Target Word Count:</strong> {wct}<br>\n" else "") ++
    (if p.notes ≠ "" then s!"    <strong>Notes:</strong> {np}<br>\n" else "") ++
    "  </div>\n" ++
    "</div>\n"

/-- One date heading plus its post cards in the HTML report; the heading
urgency label is recomputed from the current date.  A None date key fails at
`fromisoformat` with a TypeError. -/
def htmlDateSection (today : Nat) (groups : List (Option Nat × List Post))
    (date : Option Nat) : Except PyErr String := do
  let d ← match date with
    | some d => Except.ok d
    | none => Except.error (.typeError "fromisoformat: argument must be str")
  let date_str := strftimeFull d
  let days_until : Int := (d : Int) - (today : Int)
  let label :=
    if days_until ≤ 1 then " <span class=\"label label-urgent\">URGENT</span>"
    else if days_until ≤ 2 then " <span class=\"label label-soon\">DUE SOON</span>"
    else ""
  let cards ← ((groups.lookup date).getD []).mapM htmlPostCard
  return s!"<h2>{date_str}" ++ label ++ "</h2>\n" ++ String.join cards

/-- Embedding of `create_html_email`: group by due date, compute the three
statistics (a KeyError surfaces here when a record lacks `days_until_due`),
then emit header, date sections in ascending date order, and footer. -/
def create_html_email (today : Nat) (now : String) (posts : List Post) :
    Except PyErr String := do
  let posts_by_date := groupByDate posts
  let stats ← htmlStatistics posts
  let total_posts := stats.1
  let urgent_posts := stats.2.1
  let not_started := stats.2.2
  let keys ← htmlDateOrder posts
  let sections ← keys.mapM (htmlDateSection today posts_by_date)
  return htmlStyleHeader ++ htmlStatsBanner now total_posts urgent_posts not_started ++
    String.join sections ++ htmlFooter

/-- One numbered post item of the plain-text report (`enumerate` starts at 1),
with the conditional author, category, target-words and notes lines. -/
def textPostItem (i : Nat) (p : Post) : Except PyErr String := do
  let days ← daysOf p
  let title := p.title
  let status := p.status
  let priority := p.priority
  let author := p.author
  let category := p.category
  let wct := p.word_count_target
  let np := notesPreviewText p.notes
  return s!"{i}. {title}\n" ++
    s!"   Status: {status}\n" ++
    s!"   Priority: {priority}\n" ++
    s!"   Days Until Due: {days}\n" ++
    (if p.author ≠ "Unassigned" then s!"   Author: {author}\n" else "") ++
    (if p.category ≠ "" then s!"   Category: {category}\n" else "") ++
    (if p.word_count_target ≠ 0 then s!"   Target Words: {wct}\n" else "") ++
    (if p.notes ≠ "" then s!"   Notes: {np}\n" else "") ++
    "\n"

/-- One date banner plus its numbered post items in the plain-text report;
the banner urgency tag is recomputed from the current date. -/
def textDateSection (today : Nat) (groups : List (Option Nat × List Post))
    (date : Option Nat) : Except PyErr String := do
  let d ← match date with
    | some d => Except.ok d
    | none => Except.error (.typeError "fromisoformat: argument must be str")
  let date_str := strftimeFull d
  let days_until : Int := (d : Int) - (today : Int)
  let tag :=
    if days_until ≤ 1 then " [URGENT]"
    else if days_until ≤ 2 then " [DUE SOON]"
    else ""
  let sep := repeatChar '=' 60
  let group := (groups.lookup date).getD []
  let items ← group.enum.mapM (fun e => textPostItem (e.1 + 1) e.2)
  return "\n" ++ sep ++ "\n" ++ date_str ++ tag ++ "\n" ++ sep ++ "\n\n" ++
    String.join items

/-- Embedding of `create_plain_text_email`: the same grouping and the same
three statistics as the HTML renderer, then the date sections in ascending
date order and the static footer lines. -/
def create_plain_text_email (today : Nat) (now : String) (posts : List Post) :
    Except PyErr String := do
  let posts_by_date := groupByDate posts
  let stats ← textStatistics posts
  let total_posts := stats.1
  let urgent_posts := stats.2.1
  let not_started := stats.2.2
  let keys ← textDateOrder posts
  let sections ← keys.mapM (textDateSection today posts_by_date)
  let eqs := repeatChar '=' 60
  let dashes30 := repeatChar '-' 30
  let dashes60 := repeatChar '-' 60
  return "WEEKLY BLOG POST SCHEDULE\n" ++ eqs ++ "\n\n" ++
    s!"Report Generated: {now}\n\n" ++
    "SUMMARY\n" ++ dashes30 ++ "\n" ++
    s!"Total Posts Due: {total_posts}\n" ++
    s!"Urgent (≤2 days): {urgent_posts}\n" ++
    s!"Not Started: {not_started}\n\n" ++
    String.join sections ++
    "\n" ++ dashes60 ++ "\n" ++
    "This report was automatically generated from Airtable data.\n" ++
    "To update: https://airtable.com/appfjLaSUBn8FUYYz/tblrH6OO1ulOnDS4S\n"

/-- The notes line of one Markdown post block: the ellipsis is appended
unconditionally after the 100-character slice, whatever the length of the
notes. -/
def mdNotesLine (notes : String) : String :=
  let np := notes.take 100
  s!"- **Notes:** {np}...\n"

/-- One post block of the Markdown report. -/
def mdPostBlock (p : Post) : String :=
  let title := p.title
  let status := p.status
  let priority := p.priority
  let wct := p.word_count_target
  s!"### {title}\n" ++
    s!"- **Status:** {status}\n" ++
    s!"- **Priority:** {priority}\n" ++
    (if p.word_count_target ≠ 0 then s!"- **Target Words:** {wct}\n" else "") ++
    (if p.notes ≠ "" then mdNotesLine p.notes else "") ++
    "\n"

/-- One date heading plus its post blocks in the Markdown report. -/
def mdDateSection (groups : List (Option Nat × List Post)) (date : Option Nat) :
    Except PyErr String := do
  let d ← match date with
    | some d => Except.ok d
    | none => Except.error (.typeError "fromisoformat: argument must be str")
  let date_str := strftimeFull d
  let group := (groups.lookup date).getD []
  return s!"## {date_str}\n\n" ++ String.join (group.map mdPostBlock)

/-- Embedding of `example_6_create_markdown` (`parse_blog_posts.py`): title,
generation line, total-posts line, then the date sections in ascending date
order.  No other statistic appears in this artifact. -/
def example_6_create_markdown (now : String) (posts : List Post) :
    Except PyErr String := do
  let posts_by_date := groupByDate posts
  let total := posts.length
  let keys ← mdDateOrder posts
  let sections ← keys.mapM (mdDateSection posts_by_date)
  return "# Blog Posts Due This Week\n\n" ++
    s!"*Generated: {now}*\n\n" ++
    s!"**Total Posts:** {total}\n\n" ++
    String.join sections

/-- The fixed CSV column set of `example_7_csv_export`. -/
def csvFieldnames : List String :=
  ["title", "due_date", "days_until_due", "status", "priority",
   "author", "category", "word_count_target"]

/-- One cell written by `csv.DictWriter`: the value stored under the field
name, or the empty-string `restval` when the record lacks the key. -/
def csvCell (row : List (String × String)) (fn : String) : String :=
  (row.lookup fn).getD ""

/-- One CSV data row: exactly one cell per fixed column, in column order. -/
def csvRow (row : List (String × String)) : List String :=
  csvFieldnames.map (csvCell row)

/-- The dictionary of one stored post as the CSV writer sees it, with each
value rendered the way the writer serializes it (a None value becomes the
empty string, numbers are written in decimal).  The `days_until_due` key is
present only when the stored record has one. -/
def Post.toCsvDict (p : Post) : List (String × String) :=
  [("id", p.id.getD ""),
   ("title", p.title),
   ("due_date", match p.due_date with | some d => isoString d | none => ""),
   ("status", p.status),
   ("author", p.author),
   ("category", p.category),
   ("notes", p.notes),
   ("word_count_target", toString p.word_count_target),
   ("priority", p.priority)] ++
  (match p.days_until_due with
   | some k => [("days_until_due", toString k)]
   | none => [])

/-- Embedding of `example_7_csv_export`: the header row of fixed column
names followed by one row per record, in the order of the input list
(`extrasaction=\x27ignore\x27` drops fields outside the column set and the
empty `restval` fills the missing ones, so no record errors). -/
def example_7_csv_export (posts : List Post) : List (List String) :=
  csvFieldnames :: posts.map (fun p => csvRow p.toCsvDict)

/-- Sender identity of `GmailSender` (address and display name from the
environment). -/
structure SenderCfg where
  sender_email : String
  sender_name : String
deriving Repr, DecidableEq

/-- A CC or BCC argument of `send_email`/`create_message`: absent (None), a
single address string, or a list of addresses. -/
inductive CcArg where
  | noArg
  | one (s : String)
  | many (l : List String)
deriving Repr, DecidableEq

/-- Python truthiness of a CC/BCC argument: None, the empty string and the
empty list are falsy. -/
def ccTruthy : CcArg → Bool
  | .noArg => false
  | .one s => s ≠ ""
  | .many l => !l.isEmpty

/-- The Cc header value set by `create_message` when the argument is truthy:
a list is joined with a comma, a single string is used as is. -/
def ccHeaderValue : CcArg → Option String
  | .noArg => none
  | .one s => if s = "" then none else some s
  | .many l => if l.isEmpty then none else some (String.intercalate ", " l)

/-- The printed form of a CC/BCC argument in the success report (Python
prints the value itself, a list rendering with quoted items). -/
def ccArgShow : CcArg → String
  | .noArg => "None"
  | .one s => s
  | .many l => "[" ++ String.intercalate ", " (l.map (fun s => "\x27" ++ s ++ "\x27")) ++ "]"

/-- Python truthiness of the optional subject argument: `if not subject`
is taken both for None and for the empty string. -/
def pyFalsyStr (subject : Option String) : Bool :=
  match subject with
  | none => true
  | some s => s == ""

/-- The default subject computed from urgency in `create_message`. -/
def default_subject (urgent_count total : Nat) : String :=
  if 0 < urgent_count then
    s!"🔴 {urgent_count} URGENT Posts Due - Weekly Blog Schedule ({total} total)"
  else
    s!"Weekly Blog Schedule - {total} Posts Due This Week"

/-- The subject header chosen by `create_message`: the caller-supplied
subject when it is truthy, otherwise the urgency-based default. -/
def chosen_subject (subject : Option String) (urgent_count total : Nat) : String :=
  if pyFalsyStr subject then default_subject urgent_count total else subject.getD ""

/-- The composed outbound message: the headers `create_message` sets, the two
body parts and the optional attachment filename.  No BCC header exists. -/
structure EmailMessage where
  subject : String
  fromHeader : String
  toHeader : String
  dateHeader : String
  cc : Option String
  xPriority : String
  textBody : String
  htmlBody : String
  attachmentName : Option String
deriving Repr, DecidableEq

/-- Embedding of `GmailSender.create_message`: loads the stored posts,
renders both bodies, recomputes the urgent count for the subject and the
priority header, and assembles the message.  Any KeyError or TypeError of
the renderers or of the urgent-count lookup propagates. -/
def create_message (cfg : SenderCfg) (stored : List Post) (today : Nat) (now : String)
    (recipient_email : String) (subject : Option String) (cc_emails bcc_emails : CcArg)
    (attach_json : Bool) : Except PyErr (EmailMessage × List Post) := do
  let posts := load_blog_posts stored
  let html_content ← create_html_email today now posts
  let text_content ← create_plain_text_email today now posts
  let urgent_count ← urgentCountE posts
  let total := posts.length
  let subj := chosen_subject subject urgent_count total
  let name := cfg.sender_name
  let email := cfg.sender_email
  let stamp := strftimeCompact today
  let _ := bcc_emails
  return ({ subject := subj
            fromHeader := s!"{name} <{email}>"
            toHeader := recipient_email
            dateHeader := now
            cc := ccHeaderValue cc_emails
            xPriority := if 5 < urgent_count then "2" else "3"
            textBody := text_content
            htmlBody := html_content
            attachmentName := if attach_json then some s!"blog_posts_{stamp}.json" else none },
          posts)

/-- One entry of the append-only send log (`_log_send`). -/
structure LogEntry where
  timestamp : String
  recipient : String
  post_count : Nat
  sender : String
deriving Repr, DecidableEq

/-- Embedding of `GmailSender._log_send`: append one entry with the current
timestamp, the recipient, the record count and the sender address. -/
def _log_send (sender_email : String) (now : String) (log : List LogEntry)
    (recipient : String) (post_count : Nat) : List LogEntry :=
  log ++ [{ timestamp := now, recipient := recipient,
            post_count := post_count, sender := sender_email }]

/-- Behavior of the SMTP transport for one attempt: it accepts the message,
rejects the credentials (SMTPAuthenticationError), or fails in any other way
(connection, STARTTLS or submission error). -/
inductive SmtpBehavior where
  | accepts
  | rejectsAuth
  | failsOtherwise (message : String)
deriving Repr, DecidableEq

/-- Observable outcome of one `send_email` call: the returned boolean, the
lines printed to the console, and the resulting send log. -/
structure SendOutcome where
  returned : Bool
  printed : List String
  log : List LogEntry
deriving Repr, DecidableEq

/-- The remediation guidance printed on SMTPAuthenticationError. -/
def authGuidanceLines : List String :=
  ["❌ Authentication failed!",
   "   Please check:",
   "   1. Your email address is correct",
   "   2. You\x27re using an App Password (not your regular password)",
   "   3. 2-Step Verification is enabled on your Google account",
   "\n   To create an App Password:",
   "   1. Go to https://myaccount.google.com/apppasswords",
   "   2. Select \x27Mail\x27 and your device",
   "   3. Copy the 16-character password",
   "   4. Add it to .env as GMAIL_APP_PASSWORD (no spaces)"]

/-- Printed form of a Python exception at the generic handler. -/
def pyErrStr : PyErr → String
  | .keyError k => "\x27" ++ k ++ "\x27"
  | .typeError m => m

/-- Embedding of `GmailSender.send_email`: compose the message (any fault
there is caught by the outer handler and reported), honour test mode, then
run one atomic transport attempt; only a delivered message appends a log
entry, and each outcome prints its own report. -/
def send_email (cfg : SenderCfg) (stored : List Post) (today : Nat) (now : String)
    (recipient_email : String) (subject : Option String) (cc_emails bcc_emails : CcArg)
    (attach_json : Bool) (test_mode : Bool) (smtp : SmtpBehavior)
    (log : List LogEntry) : SendOutcome :=
  match create_message cfg stored today now recipient_email subject cc_emails bcc_emails attach_json with
  | .error e =>
      let m := pyErrStr e
      { returned := false, printed := [s!"❌ Error sending email: {m}"], log := log }
  | .ok (msg, posts) =>
    if test_mode then
      let fromH := msg.fromHeader
      let toH := msg.toHeader
      let subj := msg.subject
      let n := posts.length
      { returned := true
        printed := ["📧 TEST MODE - Email prepared but not sent",
            s!"   From: {fromH}", s!"   To: {toH}"] ++
          (match msg.cc with
           | some c => [s!"   CC: {c}"]
           | none => []) ++
          [s!"   Subject: {subj}", s!"   Posts included: {n}"]
        log := log }
    else
      match smtp with
      | .rejectsAuth =>
          { returned := false
            printed := "📧 Connecting to Gmail SMTP server..." :: authGuidanceLines
            log := log }
      | .failsOtherwise m =>
          { returned := false
            printed := ["📧 Connecting to Gmail SMTP server...",
              s!"❌ Error sending email: {m}"]
            log := log }
      | .accepts =>
          let email := cfg.sender_email
          let subj := msg.subject
          let n := posts.length
          let ccS := ccArgShow cc_emails
          let bccS := ccArgShow bcc_emails
          { returned := true
            printed := ["📧 Connecting to Gmail SMTP server...",
              "✅ Email sent successfully!",
              s!"   From: {email}", s!"   To: {recipient_email}"] ++
              (if ccTruthy cc_emails then [s!"   CC: {ccS}"] else []) ++
              (if ccTruthy bcc_emails then [s!"   BCC: {bccS}"] else []) ++
              [s!"   Subject: {subj}", s!"   Posts included: {n}"]
            log := _log_send cfg.sender_email now log recipient_email posts.length }

/-- The sequential loop of `send_to_multiple`, accumulating the successful
and failed recipient lists and threading the send log. -/
def send_to_multiple_loop (cfg : SenderCfg) (stored : List Post) (today : Nat) (now : String)
    (subject : Option String) (attach_json : Bool) (behavior : String → SmtpBehavior) :
    List String → List String → List String → List LogEntry →
    List String × List String × List LogEntry
  | [], successful, failed, log => (successful, failed, log)
  | r :: rest, successful, failed, log =>
    let out := send_email cfg stored today now r subject .noArg .noArg attach_json false
      (behavior r) log
    if out.returned then
      send_to_multiple_loop cfg stored today now subject attach_json behavior
        rest (successful ++ [r]) failed out.log
    else
      send_to_multiple_loop cfg stored today now subject attach_json behavior
        rest successful (failed ++ [r]) out.log

/-- Embedding of `GmailSender.send_to_multiple`: send to every recipient in
turn (each call catches its own failures) and return the successes, the
failures and the final log. -/
def send_to_multiple (cfg : SenderCfg) (stored : List Post) (today : Nat) (now : String)
    (subject : Option String) (attach_json : Bool) (behavior : String → SmtpBehavior)
    (recipients : List String) (log : List LogEntry) :
    List String × List String × List LogEntry :=
  send_to_multiple_loop cfg stored today now subject attach_json behavior recipients [] [] log

/-- The returned boolean of one send attempt, which depends only on the
composition result and the transport behavior, never on the log. -/
def attempt_ok (cfg : SenderCfg) (stored : List Post) (today : Nat) (now : String)
    (subject : Option String) (attach_json : Bool) (r : String) (b : SmtpBehavior) : Bool :=
  (send_email cfg stored today now r subject .noArg .noArg attach_json false b []).returned

/-- Substring test on character lists: the needle occurs contiguously in the
haystack. -/
def containsSeg (hay sub : List Char) : Bool :=
  sub.isPrefixOf hay ||
    match hay with
    | [] => false
    | _ :: t => containsSeg t sub

/-- Substring test on strings. -/
def strContains (hay sub : String) : Bool :=
  containsSeg hay.data sub.data

/-- The urgent count recomputable from the days-until-due column serialized
into the CSV rows: the records whose `days_until_due` value is at most 2. -/
def csvUrgentRecount (posts : List Post) : Nat :=
  posts.countP (fun p =>
    match p.days_until_due with
    | some d => d ≤ 2
    | none => false)

/-- A raw Airtable record with due date on day 10, fetched in the examples
below on day 7. -/
def rawEx : RawRecord :=
  { id := some "rec1", fields := { title := some "Launch post", dueDate := some 10 } }

/-- A record due on rata-die day 739261 (2025-01-10), one day after the
example current date 739260 (2025-01-09). -/
def pEarly : Post :=
  { id := some "r1", title := "A", due_date := some 739261, status := "Not Started",
    author := "Unassigned", category := "", notes := "", word_count_target := 0,
    priority := "Medium", days_until_due := some 1 }

/-- A record due on rata-die day 739263 (2025-01-12). -/
def pLate : Post :=
  { id := some "r2", title := "C", due_date := some 739263, status := "In Progress",
    author := "Unassigned", category := "", notes := "", word_count_target := 0,
    priority := "Medium", days_until_due := some 3 }

/-- A stored record with a null due date and hence no `days_until_due` key. -/
def pNoDays : Post :=
  { id := some "r3", title := "D", due_date := none, status := "Not Started",
    author := "Unassigned", category := "", notes := "", word_count_target := 0,
    priority := "Medium", days_until_due := none }

/-- A notes value of exactly 50 characters. -/
def notes50 : String :=
  String.mk (List.replicate 50 'n')

/-- A notes value of exactly 200 characters. -/
def notes200 : String :=
  String.mk (List.replicate 200 'x')

/-- The record of the 50-character-notes experiment. -/
def pNotes50 : Post :=
  { pEarly with id := some "r9", title := "N", notes := notes50 }

/-- A sender configuration for the concrete send experiments. -/
def senderCfg1 : SenderCfg :=
  { sender_email := "reports@example.com", sender_name := "Blog Report System" }

/-- C9: the fetch filter selects exactly the records whose due date lies
strictly after the window start and strictly before the window end (both
endpoints excluded, a blank due date never matches), and the result comes
back ordered ascending by due date. -/
theorem fetch_filter_strict_window_sorted (windowStart windowEnd : Nat)
    (table : List RawRecord) :
    (∀ r, r ∈ airtableSelect windowStart windowEnd table ↔
      (r ∈ table ∧ ∃ d, r.fields.dueDate = some d ∧ windowStart < d ∧ d < windowEnd)) ∧
    (airtableSelect windowStart windowEnd table).Pairwise (fun a b => dueKey a ≤ dueKey b) := by
  refine ⟨?_, pairwise_sortByKey _ _⟩
  intro r
  rw [airtableSelect, mem_sortByKey, List.mem_filter]
  cases hd : r.fields.dueDate with
  | none => simp [filterFormulaHolds, hd]
  | some d => simp [filterFormulaHolds, hd, IS_AFTER, IS_BEFORE]

/-- C4: a transport failure of the fetch is caught: the fetch returns the
empty list and reports the failure on the operator channel; and record
normalization is total, substituting the documented default for every
missing field and ignoring unknown fields entirely. -/
theorem fetch_degrades_to_empty_with_defaults (today : Nat) (e : RequestError)
    (table : List RawRecord) (rid : Option String) (extra : List (String × String))
    (r : RawRecord) (extra1 extra2 : List (String × String)) :
    (get_posts_due_this_week today (.error e) table).1 = [] ∧
    (get_posts_due_this_week today (.error e) table).2.head? =
      some ("Error fetching data from Airtable: " ++ e.message) ∧
    _process_records today [{ id := rid, fields := { extra := extra } }] =
      [{ id := rid, title := "Untitled", due_date := none, status := "Not Started",
         author := "Unassigned", category := "", notes := "", word_count_target := 0,
         priority := "Medium", days_until_due := none }] ∧
    _process_records today [{ r with fields := { r.fields with extra := extra1 } }] =
      _process_records today [{ r with fields := { r.fields with extra := extra2 } }] := by
  refine ⟨rfl, ?_, rfl, rfl⟩
  rw [show (get_posts_due_this_week today (.error e) table).2.head? =
    some ("Error fetching data from Airtable: " ++ e.message ++ "") from rfl,
    String.append_empty]

/-- C1 counterexample: a record fetched on day 7 with due date day 10 is
stored with `days_until_due = 3`; loading it when today is day 9 returns the
stale 3 unchanged, although recomputation from the due date would give 1:
`load_blog_posts` does not recompute the field. -/
theorem load_keeps_stale_days_until_due :
    (load_blog_posts (_process_records 7 [rawEx])).map Post.days_until_due = [some 3] ∧
    (10 : Int) - (9 : Int) = 1 ∧
    ((some (3 : Int) : Option Int) ≠ some 1) := by
  refine ⟨rfl, rfl, by decide⟩

/-- C1 amended: `days_until_due` is computed from the due date and the
current date at fetch time inside `_process_records`, and `load_blog_posts`
returns the persisted records verbatim, with no recomputation at load. -/
theorem days_until_due_computed_at_fetch_only (today : Nat)
    (records : List RawRecord) (stored : List Post) :
    (_process_records today records).map Post.days_until_due =
      records.map (fun r => r.fields.dueDate.map (fun d => (d : Int) - (today : Int))) ∧
    load_blog_posts stored = stored := by
  constructor
  · simp [_process_records]
  · rfl

theorem mapM_daysOf_error (posts : List Post)
    (h : ∃ p ∈ posts, p.days_until_due = none) :
    posts.mapM daysOf = .error (.keyError "days_until_due") := by
  induction posts with
  | nil => simp at h
  | cons p rest ih =>
    cases hp : p.days_until_due with
    | none =>
      rw [List.mapM_cons, show daysOf p = .error (.keyError "days_until_due") from by
        rw [daysOf, hp]]
      rfl
    | some d =>
      rcases h with ⟨q, hq, hnone⟩
      rcases List.mem_cons.mp hq with rfl | hmem
      · rw [hp] at hnone; exact absurd hnone (by simp)
      · have hrec := ih ⟨q, hmem, hnone⟩
        rw [List.mapM_cons, show daysOf p = .ok d from by rw [daysOf, hp], hrec]
        rfl

theorem urgentCountE_keyError (posts : List Post)
    (h : ∃ p ∈ posts, p.days_until_due = none) :
    urgentCountE posts = .error (.keyError "days_until_due") := by
  rw [urgentCountE]
  simp only [mapM_daysOf_error posts h]
  rfl

theorem mapM_daysOf_ok (posts : List Post)
    (h : ∀ p ∈ posts, p.days_until_due ≠ none) :
    posts.mapM daysOf = .ok (posts.filterMap Post.days_until_due) := by
  induction posts with
  | nil => rfl
  | cons p rest ih =>
    cases hp : p.days_until_due with
    | none => exact absurd hp (h p (by simp))
    | some d =>
      have hrec := ih (fun q hq => h q (by simp [hq]))
      rw [List.mapM_cons, show daysOf p = .ok d from by rw [daysOf, hp], hrec,
        List.filterMap_cons, hp]
      rfl

theorem filter_le2_length_recount (posts : List Post)
    (h : ∀ p ∈ posts, p.days_until_due ≠ none) :
    ((posts.filterMap Post.days_until_due).filter (fun d => d ≤ 2)).length =
      csvUrgentRecount posts := by
  induction posts with
  | nil => rfl
  | cons p rest ih =>
    cases hp : p.days_until_due with
    | none => exact absurd hp (h p (by simp))
    | some d =>
      have hrec := ih (fun q hq => h q (by simp [hq]))
      by_cases hd : d ≤ 2 <;>
        simp [List.filterMap_cons, hp, List.filter_cons, hd, csvUrgentRecount,
          List.countP_cons, hrec]

theorem urgentCountE_recount (posts : List Post)
    (h : ∀ p ∈ posts, p.days_until_due ≠ none) :
    urgentCountE posts = .ok (csvUrgentRecount posts) := by
  rw [urgentCountE]
  simp only [mapM_daysOf_ok posts h]
  rw [show ((do
      let ds ← (Except.ok (posts.filterMap Post.days_until_due) : Except PyErr (List Int))
      return (ds.filter (fun d => d ≤ 2)).length) : Except PyErr Nat) =
    .ok ((posts.filterMap Post.days_until_due).filter (fun d => d ≤ 2)).length from rfl]
  rw [filter_le2_length_recount posts h]

theorem create_html_email_keyError (today : Nat) (now : String) (posts : List Post)
    (h : ∃ p ∈ posts, p.days_until_due = none) :
    create_html_email today now posts = .error (.keyError "days_until_due") := by
  have hs : htmlStatistics posts = .error (.keyError "days_until_due") := by
    rw [htmlStatistics]
    simp only [urgentCountE_keyError posts h]
    rfl
  rw [create_html_email]
  simp only [hs]
  rfl

theorem create_plain_text_email_keyError (today : Nat) (now : String) (posts : List Post)
    (h : ∃ p ∈ posts, p.days_until_due = none) :
    create_plain_text_email today now posts = .error (.keyError "days_until_due") := by
  have hs : textStatistics posts = .error (.keyError "days_until_due") := by
    rw [textStatistics]
    simp only [urgentCountE_keyError posts h]
    rfl
  rw [create_plain_text_email]
  simp only [hs]
  rfl

theorem create_message_keyError (cfg : SenderCfg) (stored : List Post) (today : Nat)
    (now : String) (recipient : String) (subject : Option String) (cc bcc : CcArg)
    (att : Bool) (h : ∃ p ∈ stored, p.days_until_due = none) :
    create_message cfg stored today now recipient subject cc bcc att =
      .error (.keyError "days_until_due") := by
  have hh : create_html_email today now (load_blog_posts stored) =
      .error (.keyError "days_until_due") :=
    create_html_email_keyError today now (load_blog_posts stored) h
  rw [create_message]
  simp only [hh]
  rfl

/-- C10: any record set containing a record without the `days_until_due` key
makes `create_html_email`, `create_plain_text_email` and `create_message`
fail with that KeyError instead of producing output: these functions are
total only on record sets in which every record carries the key. -/
theorem renderers_fault_on_missing_days_key (today : Nat) (now : String)
    (posts : List Post) (cfg : SenderCfg) (recipient : String)
    (subject : Option String) (cc bcc : CcArg) (att : Bool)
    (h : ∃ p ∈ posts, p.days_until_due = none) :
    create_html_email today now posts = .error (.keyError "days_until_due") ∧
    create_plain_text_email today now posts = .error (.keyError "days_until_due") ∧
    create_message cfg posts today now recipient subject cc bcc att =
      .error (.keyError "days_until_due") :=
  ⟨create_html_email_keyError today now posts h,
   create_plain_text_email_keyError today now posts h,
   create_message_keyError cfg posts today now recipient subject cc bcc att h⟩

/-- C10 witness: the concrete record set containing `pNoDays` makes all
three functions fail with the KeyError. -/
theorem renderers_fault_on_missing_days_key_witness :
    create_html_email 739260 "T" [pEarly, pNoDays] = .error (.keyError "days_until_due") ∧
    create_plain_text_email 739260 "T" [pEarly, pNoDays] = .error (.keyError "days_until_due") ∧
    create_message senderCfg1 [pEarly, pNoDays] 739260 "T" "to@example.com" none .noArg .noArg false =
      .error (.keyError "days_until_due") :=
  renderers_fault_on_missing_days_key 739260 "T" [pEarly, pNoDays] senderCfg1
    "to@example.com" none .noArg .noArg false ⟨pNoDays, by simp, rfl⟩

set_option maxRecDepth 100000 in
/-- C2 counterexample: a 50-character notes value does not render unmodified
in the Markdown artifact: the generated report contains the notes excerpt
with the ellipsis appended even though no truncation occurred. -/
theorem markdown_ellipsis_on_short_notes :
    notes50.length = 50 ∧
    ((example_6_create_markdown "2025-01-09 08:00" [pNotes50]).toOption.map
      (fun md => strContains md (mdNotesLine notes50))) = some true ∧
    mdNotesLine notes50 = "- **Notes:** " ++ notes50 ++ "...\n" := by
  refine ⟨by decide, by decide, by decide⟩

/-- C2 amended: the plain-text and HTML excerpts are truncated to 100 and
150 characters with the ellipsis appended exactly when the original notes
exceeded that budget; the Markdown notes line instead always appends the
ellipsis after the 100-character slice, whatever the length. -/
theorem notes_truncation_amended (notes : String) :
    (notes.length ≤ 100 → notesPreviewText notes = notes) ∧
    (100 < notes.length → notesPreviewText notes = notes.take 100 ++ "...") ∧
    (notes.length ≤ 150 → notesPreviewHtml notes = notes) ∧
    (150 < notes.length → notesPreviewHtml notes = notes.take 150 ++ "...") ∧
    mdNotesLine notes = "- **Notes:** " ++ notes.take 100 ++ "...\n" := by
  refine ⟨?_, ?_, ?_, ?_, rfl⟩
  · intro h; rw [notesPreviewText, if_neg (by omega)]
  · intro h; rw [notesPreviewText, if_pos (by omega)]
  · intro h; rw [notesPreviewHtml, if_neg (by omega)]
  · intro h; rw [notesPreviewHtml, if_pos (by omega)]

set_option maxRecDepth 100000 in
/-- C2 witness: the truncation behavior at a 50-character and a
200-character notes value. -/
theorem notes_truncation_amended_witness :
    notesPreviewText notes50 = notes50 ∧
    notesPreviewHtml notes50 = notes50 ∧
    notesPreviewText notes200 = notes200.take 100 ++ "..." ∧
    notesPreviewHtml notes200 = notes200.take 150 ++ "..." :=
  ⟨(notes_truncation_amended notes50).1 (by decide),
   (notes_truncation_amended notes50).2.2.1 (by decide),
   (notes_truncation_amended notes200).2.1 (by decide),
   (notes_truncation_amended notes200).2.2.2.1 (by decide)⟩

set_option maxRecDepth 100000 in
/-- C3 counterexample: the four artifacts do not all present the date groups
in the same ascending order: with a later-due record listed first, the HTML
date order is ascending while the CSV rows keep the input order, so the CSV
due-date column is descending here. -/
theorem artifacts_date_order_divergence :
    htmlDateOrder [pLate, pEarly] = .ok [some 739261, some 739263] ∧
    ((example_7_csv_export [pLate, pEarly]).tail).map (fun row => row.getD 1 "") =
      ["2025-01-12", "2025-01-10"] ∧
    isoString 739261 = "2025-01-10" ∧
    isoString 739263 = "2025-01-12" := by
  refine ⟨rfl, by decide, by decide, by decide⟩

/-- C3 amended: HTML and plain text share one identical statistics
computation and one identical ascending date order, which the Markdown
artifact also follows; the CSV rows stay in input order, but the urgent
count recomputed from the records serialized into the CSV days-until-due
column equals the HTML and plain-text urgent count. -/
theorem csvRow_days_cell (p : Post) :
    (csvRow p.toCsvDict).getD 2 "" =
      (match p.days_until_due with
       | some k => toString k
       | none => "") := by
  cases hk : p.days_until_due <;> simp only [Post.toCsvDict, hk] <;> rfl

theorem render_views_consistency (posts : List Post)
    (h : ∀ p ∈ posts, p.days_until_due ≠ none) :
    htmlStatistics posts = textStatistics posts ∧
    htmlDateOrder posts = textDateOrder posts ∧
    textDateOrder posts = mdDateOrder posts ∧
    htmlStatistics posts = .ok (posts.length, csvUrgentRecount posts, notStartedCount posts) ∧
    ((example_7_csv_export posts).tail).map (fun row => row.getD 2 "") =
      posts.map (fun p =>
        match p.days_until_due with
        | some k => toString k
        | none => "") := by
  refine ⟨rfl, rfl, rfl, ?_, ?_⟩
  · rw [htmlStatistics]
    simp only [urgentCountE_recount posts h]
    rfl
  · rw [example_7_csv_export]
    simp only [List.tail_cons, List.map_map]
    exact List.map_congr_left (fun p hp => csvRow_days_cell p)

/-- C3 witness: the shared statistics on a concrete two-record set with one
urgent record. -/
theorem render_views_consistency_witness :
    htmlStatistics [pEarly, pLate] =
      .ok (2, csvUrgentRecount [pEarly, pLate], notStartedCount [pEarly, pLate]) ∧
    csvUrgentRecount [pEarly, pLate] = 1 :=
  ⟨(render_views_consistency [pEarly, pLate] (by decide)).2.2.2.1, rfl⟩

set_option maxRecDepth 1000000 in
/-- C7 counterexample: a caller-supplied empty-string subject is not used
verbatim: `create_message` falls back to the urgency default because the
Python truthiness test `if not subject` also catches the empty string. -/
theorem empty_subject_not_used_verbatim :
    ((create_message senderCfg1 [pEarly] 739260 "T" "to@example.com" (some "")
        .noArg .noArg false).toOption.map (fun m => m.1.subject)) =
      some (default_subject 1 1) ∧
    default_subject 1 1 = "🔴 1 URGENT Posts Due - Weekly Blog Schedule (1 total)" ∧
    default_subject 1 1 ≠ "" := by
  refine ⟨rfl, by decide, by decide⟩

/-- C7 amended: an absent or empty-string subject yields the default, which
contains the urgent count and the total when the urgent count is positive
and states the total only when it is zero; a non-empty caller-supplied
subject is used verbatim regardless of the urgent count. -/
theorem subject_selection_amended (urgent total : Nat) (s : String) :
    chosen_subject none urgent total = default_subject urgent total ∧
    chosen_subject (some "") urgent total = default_subject urgent total ∧
    (s ≠ "" → chosen_subject (some s) urgent total = s) ∧
    (0 < urgent → default_subject urgent total =
      "🔴 " ++ toString urgent ++ " URGENT Posts Due - Weekly Blog Schedule (" ++
        toString total ++ " total)") ∧
    (urgent = 0 → default_subject urgent total =
      "Weekly Blog Schedule - " ++ toString total ++ " Posts Due This Week") := by
  refine ⟨rfl, rfl, ?_, ?_, ?_⟩
  · intro hs
    have hb : (s == "") = false := beq_eq_false_iff_ne.mpr hs
    simp [chosen_subject, pyFalsyStr, hb]
  · intro hu
    rw [default_subject, if_pos hu]
    rfl
  · intro hu
    rw [default_subject, if_neg (by omega)]
    rfl

/-- C7 witness: a concrete non-empty supplied subject wins, and the two
default forms at concrete counts. -/
theorem subject_selection_amended_witness :
    chosen_subject (some "Hello") 3 7 = "Hello" ∧
    default_subject 3 7 = "🔴 3 URGENT Posts Due - Weekly Blog Schedule (7 total)" ∧
    default_subject 0 4 = "Weekly Blog Schedule - 4 Posts Due This Week" ∧
    strContains (default_subject 0 4) "URGENT" = false ∧
    strContains (default_subject 3 7) "3" = true :=
  ⟨(subject_selection_amended 3 7 "Hello").2.2.1 (by decide),
   by decide, by decide, by decide, by decide⟩

theorem lookup_filter_keys (fn : String) (P : String → Bool) (hP : P fn = true)
    (row : List (String × String)) :
    (row.filter (fun kv => P kv.1)).lookup fn = row.lookup fn := by
  induction row with
  | nil => rfl
  | cons kv rest ih =>
    obtain ⟨k, v⟩ := kv
    by_cases hk : (fn == k) = true
    · have hkeq : fn = k := eq_of_beq hk
      subst hkeq
      rw [List.filter_cons_of_pos (by simpa using hP)]
      simp [List.lookup]
    · cases hPk : P k
      · rw [List.filter_cons_of_neg (by simp [hPk])]
        rw [ih]
        simp [List.lookup, Bool.of_not_eq_true hk]
      · rw [List.filter_cons_of_pos (by simp [hPk])]
        simp [List.lookup, Bool.of_not_eq_true hk, ih]

/-- C8: the CSV export emits the fixed header; each row has exactly one cell
per fixed column; a missing field serializes as the empty cell; a present
field is written verbatim; fields outside the fixed column set never affect
the row; and the row of a stored record lists its title, ISO due date, days
until due, status, priority, author, category and word-count target
verbatim, in that column order, dropping the id and notes fields. -/
theorem csv_fixed_columns_and_verbatim (row : List (String × String)) (p : Post)
    (fn v : String) (posts : List Post) :
    (example_7_csv_export posts).head? = some csvFieldnames ∧
    (csvRow row).length = 8 ∧
    (row.lookup fn = none → csvCell row fn = "") ∧
    (row.lookup fn = some v → csvCell row fn = v) ∧
    csvRow (row.filter (fun kv => csvFieldnames.contains kv.1)) = csvRow row ∧
    csvRow p.toCsvDict =
      [p.title,
       (match p.due_date with | some d => isoString d | none => ""),
       (match p.days_until_due with | some k => toString k | none => ""),
       p.status, p.priority, p.author, p.category, toString p.word_count_target] := by
  refine ⟨rfl, rfl, ?_, ?_, ?_, ?_⟩
  · intro h; rw [csvCell, h]; rfl
  · intro h; rw [csvCell, h]; rfl
  · have hf : ∀ f2, csvFieldnames.contains f2 = true →
        csvCell (row.filter (fun kv => csvFieldnames.contains kv.1)) f2 = csvCell row f2 := by
      intro f2 h2
      rw [csvCell, csvCell, lookup_filter_keys f2 _ h2]
    rw [csvRow, csvRow]
    exact List.map_congr_left (fun f2 h2 => hf f2 (List.elem_eq_true_of_mem h2))
  · cases hd : p.due_date <;> cases hk2 : p.days_until_due <;>
      simp only [Post.toCsvDict, hd, hk2] <;> rfl

/-- C8 witness: a row lacking a fixed field serializes it as the empty cell,
and a present field is written verbatim. -/
theorem csv_fixed_columns_and_verbatim_witness :
    csvCell [("title", "T")] "status" = "" ∧
    csvCell [("title", "T")] "title" = "T" :=
  ⟨(csv_fixed_columns_and_verbatim [("title", "T")] pEarly "status" "x" []).2.2.1 rfl,
   (csv_fixed_columns_and_verbatim [("title", "T")] pEarly "title" "T" []).2.2.2.1 rfl⟩

theorem create_message_ok_posts (cfg : SenderCfg) (stored : List Post) (today : Nat)
    (now : String) (recipient : String) (subject : Option String) (cc bcc : CcArg)
    (att : Bool) (m : EmailMessage × List Post)
    (h : create_message cfg stored today now recipient subject cc bcc att = .ok m) :
    m.2 = stored := by
  rw [create_message] at h
  cases h1 : create_html_email today now (load_blog_posts stored) with
  | error e => rw [h1] at h; simp [Bind.bind, Except.bind] at h
  | ok html =>
    rw [h1] at h
    cases h2 : create_plain_text_email today now (load_blog_posts stored) with
    | error e => rw [h2] at h; simp [Bind.bind, Except.bind] at h
    | ok text =>
      rw [h2] at h
      cases h3 : urgentCountE (load_blog_posts stored) with
      | error e => rw [h3] at h; simp [Bind.bind, Except.bind] at h
      | ok u =>
        rw [h3] at h
        simp only [Bind.bind, Except.bind, pure, Except.pure, Except.ok.injEq] at h
        rw [← h]
        rfl

theorem send_email_returned_log_invariant (cfg : SenderCfg) (stored : List Post)
    (today : Nat) (now : String) (r : String) (subject : Option String) (att : Bool)
    (b : SmtpBehavior) (log : List LogEntry) :
    (send_email cfg stored today now r subject .noArg .noArg att false b log).returned =
      attempt_ok cfg stored today now subject att r b := by
  rw [attempt_ok, send_email, send_email]
  cases create_message cfg stored today now r subject .noArg .noArg att with
  | error e => rfl
  | ok m =>
    obtain ⟨msg, posts⟩ := m
    cases b <;> rfl

theorem send_email_log_spec (cfg : SenderCfg) (stored : List Post) (today : Nat)
    (now : String) (r : String) (subject : Option String) (att : Bool)
    (b : SmtpBehavior) (log : List LogEntry) :
    (send_email cfg stored today now r subject .noArg .noArg att false b log).log =
      (if (send_email cfg stored today now r subject .noArg .noArg att false b log).returned
       then log ++ [{ timestamp := now, recipient := r, post_count := stored.length,
                      sender := cfg.sender_email }]
       else log) := by
  rw [send_email]
  cases hm : create_message cfg stored today now r subject .noArg .noArg att with
  | error e => rfl
  | ok m =>
    obtain ⟨msg, posts⟩ := m
    have hposts : posts = stored := by
      simpa using create_message_ok_posts cfg stored today now r subject .noArg .noArg
        att (msg, posts) hm
    subst hposts
    cases b with
    | accepts => simp [_log_send]
    | rejectsAuth => rfl
    | failsOtherwise m2 => rfl

theorem send_to_multiple_loop_spec (cfg : SenderCfg) (stored : List Post) (today : Nat)
    (now : String) (subject : Option String) (att : Bool)
    (behavior : String → SmtpBehavior) :
    ∀ (rest succ fail : List String) (log : List LogEntry),
    send_to_multiple_loop cfg stored today now subject att behavior rest succ fail log =
      (succ ++ rest.filter (fun r => attempt_ok cfg stored today now subject att r (behavior r)),
       fail ++ rest.filter (fun r => !attempt_ok cfg stored today now subject att r (behavior r)),
       log ++ (rest.filter
         (fun r => attempt_ok cfg stored today now subject att r (behavior r))).map
         (fun r => { timestamp := now, recipient := r, post_count := stored.length,
                     sender := cfg.sender_email })) := by
  intro rest
  induction rest with
  | nil => intro succ fail log; simp [send_to_multiple_loop]
  | cons r rest ih =>
    intro succ fail log
    have hret := send_email_returned_log_invariant cfg stored today now r subject att
      (behavior r) log
    have hlog := send_email_log_spec cfg stored today now r subject att (behavior r) log
    by_cases hok : attempt_ok cfg stored today now subject att r (behavior r)
    · simp [send_to_multiple_loop, hret, hlog, hok, ih, List.filter_cons,
        List.append_assoc]
    · simp [send_to_multiple_loop, hret, hlog, hok, ih, List.filter_cons,
        List.append_assoc]

theorem str_interp_trailer (a b : String) :
    toString a ++ toString b ++ toString "" = a ++ b := by
  rw [show (toString "" : String) = "" from rfl, String.append_empty]
  rfl

/-- C5: with a composable message and test mode off, one send attempt has
exactly three outcomes.  Rejected credentials return false, print the
remediation guidance and leave the log unchanged; any other transport
failure returns false, surfaces the underlying cause and leaves the log
unchanged; an accepted message returns true and appends exactly one log
entry with the timestamp, recipient, record count and sender.  The log
grows only on the accepted outcome, and the two failure outcomes print
distinguishable reports. -/
theorem send_failure_taxonomy_and_log (cfg : SenderCfg) (stored : List Post)
    (today : Nat) (now : String) (recipient : String) (subject : Option String)
    (cc bcc : CcArg) (att : Bool) (log : List LogEntry) (msgT : String)
    (h : ∃ m, create_message cfg stored today now recipient subject cc bcc att = .ok m) :
    (send_email cfg stored today now recipient subject cc bcc att false .rejectsAuth log).returned = false ∧
    (send_email cfg stored today now recipient subject cc bcc att false .rejectsAuth log).log = log ∧
    (send_email cfg stored today now recipient subject cc bcc att false .rejectsAuth log).printed =
      "📧 Connecting to Gmail SMTP server..." :: authGuidanceLines ∧
    (send_email cfg stored today now recipient subject cc bcc att false (.failsOtherwise msgT) log).returned = false ∧
    (send_email cfg stored today now recipient subject cc bcc att false (.failsOtherwise msgT) log).log = log ∧
    (send_email cfg stored today now recipient subject cc bcc att false (.failsOtherwise msgT) log).printed =
      ["📧 Connecting to Gmail SMTP server...", "❌ Error sending email: " ++ msgT] ∧
    (send_email cfg stored today now recipient subject cc bcc att false .accepts log).returned = true ∧
    (send_email cfg stored today now recipient subject cc bcc att false .accepts log).log =
      log ++ [{ timestamp := now, recipient := recipient, post_count := stored.length,
                sender := cfg.sender_email }] ∧
    (∀ b, (send_email cfg stored today now recipient subject cc bcc att false b log).log ≠ log →
      b = .accepts) ∧
    (send_email cfg stored today now recipient subject cc bcc att false .rejectsAuth log).printed ≠
      (send_email cfg stored today now recipient subject cc bcc att false (.failsOtherwise msgT) log).printed := by
  obtain ⟨m, hm⟩ := h
  obtain ⟨msg, posts⟩ := m
  have hposts : posts = stored := by
    simpa using create_message_ok_posts cfg stored today now recipient subject cc bcc
      att (msg, posts) hm
  subst hposts
  simp only [send_email, hm, Bool.false_eq_true, if_false]
  refine ⟨trivial, trivial, trivial, trivial, trivial, ?_, trivial, ?_, ?_, ?_⟩
  · rw [str_interp_trailer]
  · simp [_log_send]
  · intro b
    cases b with
    | accepts => intro hne; rfl
    | rejectsAuth => intro hne; exact absurd rfl hne
    | failsOtherwise m2 => intro hne; exact absurd rfl hne
  · intro heq
    have hl := congrArg List.length heq
    simp [authGuidanceLines] at hl

set_option maxRecDepth 1000000 in
/-- C5 witness: on an empty stored record set, a rejected-credentials
attempt returns false with the log untouched, and an accepted attempt
appends exactly the one expected entry. -/
theorem send_failure_taxonomy_and_log_witness :
    (send_email senderCfg1 [] 739260 "TS" "to@example.com" none .noArg .noArg false
      false .rejectsAuth []).returned = false ∧
    (send_email senderCfg1 [] 739260 "TS" "to@example.com" none .noArg .noArg false
      false .accepts []).log =
      [{ timestamp := "TS", recipient := "to@example.com", post_count := 0,
         sender := "reports@example.com" }] :=
  ⟨(send_failure_taxonomy_and_log senderCfg1 [] 739260 "TS" "to@example.com" none
      .noArg .noArg false [] "boom" ⟨_, rfl⟩).1,
   by
    have hw := (send_failure_taxonomy_and_log senderCfg1 [] 739260 "TS" "to@example.com"
      none .noArg .noArg false [] "boom" ⟨_, rfl⟩).2.2.2.2.2.2.2.1
    simpa [senderCfg1] using hw⟩

/-- C6: the multi-recipient send is sequential and per-recipient isolated:
the result lists are exactly the recipients whose own attempt succeeded and
the recipients whose own attempt failed, in order, every recipient is
attempted whatever happened before it, the two lists together are a
permutation of the input, every input recipient lands in exactly one of
them, and the log gains exactly one entry per successful recipient. -/
theorem send_to_multiple_isolated_partition (cfg : SenderCfg) (stored : List Post)
    (today : Nat) (now : String) (subject : Option String) (att : Bool)
    (behavior : String → SmtpBehavior) (recipients : List String)
    (log : List LogEntry) :
    send_to_multiple cfg stored today now subject att behavior recipients log =
      (recipients.filter (fun r => attempt_ok cfg stored today now subject att r (behavior r)),
       recipients.filter (fun r => !attempt_ok cfg stored today now subject att r (behavior r)),
       log ++ (recipients.filter
         (fun r => attempt_ok cfg stored today now subject att r (behavior r))).map
         (fun r => { timestamp := now, recipient := r, post_count := stored.length,
                     sender := cfg.sender_email })) ∧
    ((send_to_multiple cfg stored today now subject att behavior recipients log).1 ++
      (send_to_multiple cfg stored today now subject att behavior recipients log).2.1).Perm
      recipients ∧
    (∀ r ∈ recipients,
      r ∈ (send_to_multiple cfg stored today now subject att behavior recipients log).1 ∨
      r ∈ (send_to_multiple cfg stored today now subject att behavior recipients log).2.1) := by
  have hspec := send_to_multiple_loop_spec cfg stored today now subject att behavior
    recipients [] [] log
  have hmain : send_to_multiple cfg stored today now subject att behavior recipients log =
      (recipients.filter (fun r => attempt_ok cfg stored today now subject att r (behavior r)),
       recipients.filter (fun r => !attempt_ok cfg stored today now subject att r (behavior r)),
       log ++ (recipients.filter
         (fun r => attempt_ok cfg stored today now subject att r (behavior r))).map
         (fun r => { timestamp := now, recipient := r, post_count := stored.length,
                     sender := cfg.sender_email })) := by
    rw [send_to_multiple, hspec]
    simp
  refine ⟨hmain, ?_, ?_⟩
  · rw [hmain]
    exact List.filter_append_perm _ recipients
  · intro r hr
    rw [hmain]
    by_cases hok : attempt_ok cfg stored today now subject att r (behavior r)
    · exact Or.inl (List.mem_filter.mpr ⟨hr, hok⟩)
    · exact Or.inr (List.mem_filter.mpr ⟨hr, by simp [hok]⟩)
